import Mathlib

set_option maxRecDepth 100000

/-!
Verification development for the portfolio chatbot API route
(`src/app/api/chat/route.ts`).

The route consists of:
* a lazily-initialised retrieval pipeline guarded by module-level flags
  (`isInitialized`, `isInitializing`, `initPromise`),
* a long rule-based text normaliser `cleanModelResponse(text, originalMessage)`
  built from an ordered sequence of JavaScript regex substitutions, a
  sentence-deduplication pass, question-keyed intent overrides, a concision
  trim, a list-formatting pass and a "no information" fallback,
* a POST handler with a streaming branch (per-character delivery) and a
  non-streaming branch (Promise.race against a 90 s timeout).

Every definition below is translated from that source file.  Text is modelled
as `List Char` / `String`; each JavaScript regex substitution becomes a
dedicated scanner whose doc comment quotes the source pattern.  JavaScript
semantics that matter are reproduced: global scans resume after the end of a
match, `\b` is an ASCII word boundary, `\s` is whitespace, case-insensitive
matching lowercases both sides, `.` does not match newlines.  Strings in the
source are ASCII, so `String.length` (chars) coincides with JavaScript's
UTF-16 length on all inputs considered here.
-/

/-- ASCII whitespace, matching the JavaScript `\s` class on the ASCII range
(space, tab, newline, carriage return, vertical tab, form feed). -/
def isWs (c : Char) : Bool :=
  c = ' ' || c = '\t' || c = '\n' || c = '\r' || c = Char.ofNat 11 || c = Char.ofNat 12

/-- JavaScript `\w` class: `[A-Za-z0-9_]`. -/
def isWordC (c : Char) : Bool :=
  ('a' ≤ c && c ≤ 'z') || ('A' ≤ c && c ≤ 'Z') || ('0' ≤ c && c ≤ '9') || c = '_'

/-- ASCII letter, the `[a-zA-Z]` class. -/
def isAsciiLetter (c : Char) : Bool :=
  ('a' ≤ c && c ≤ 'z') || ('A' ≤ c && c ≤ 'Z')

/-- ASCII lowercase letter, the `[a-z]` class. -/
def isLowerAscii (c : Char) : Bool := 'a' ≤ c && c ≤ 'z'

/-- ASCII uppercase letter, the `[A-Z]` class. -/
def isUpperAscii (c : Char) : Bool := 'A' ≤ c && c ≤ 'Z'

/-- ASCII digit, the `\d` class. -/
def isDigitC (c : Char) : Bool := '0' ≤ c && c ≤ '9'

/-- Whether an optional character (the char before the scan position, if any)
is a word character; the start of the string counts as a non-word side. -/
def isWordOpt : Option Char → Bool
  | none => false
  | some c => isWordC c

/-- A `\b` word boundary holds after a match ending in a word character iff
the next input character is not a word character (or the input ended). -/
def noWordHead : List Char → Bool
  | [] => true
  | c :: _ => !isWordC c

/-- Strip a literal, case-insensitively (the regex `i` flag); returns the
rest of the input on success. -/
def stripCI : List Char → List Char → Option (List Char)
  | [], l => some l
  | _ :: _, [] => none
  | p :: ps, c :: cs => if c.toLower = p.toLower then stripCI ps cs else none

/-- Strip a literal, case-sensitively; returns the rest on success. -/
def stripCS : List Char → List Char → Option (List Char)
  | [], l => some l
  | _ :: _, [] => none
  | p :: ps, c :: cs => if c = p then stripCS ps cs else none

/-- `\s+`: at least one whitespace character, consumed greedily. -/
def wsPlus : List Char → Option (List Char)
  | [] => none
  | c :: cs => if isWs c then some (cs.dropWhile isWs) else none

/-- `\s*`: any run of whitespace, consumed greedily. -/
def wsStar (l : List Char) : List Char := l.dropWhile isWs

/-- Case-sensitive substring test (JavaScript `String.includes`). -/
def hasCS (lit : List Char) : List Char → Bool
  | [] => (stripCS lit []).isSome
  | c :: cs => (stripCS lit (c :: cs)).isSome || hasCS lit cs

/-- Case-insensitive substring test (a `test` of a literal regex with `i`). -/
def hasCI (lit : List Char) : List Char → Bool
  | [] => (stripCI lit []).isSome
  | c :: cs => (stripCI lit (c :: cs)).isSome || hasCI lit cs

/-- Last character consumed by a match that took `c :: cs` to `rest`; used to
carry the correct left context for `\b` checks after a replacement, since a
JavaScript global replace resumes scanning at the end of the match in the
original string. -/
def lastConsumed (c : Char) (cs rest : List Char) : Char :=
  ((c :: cs).take (cs.length + 1 - rest.length)).getLastD c

/-- Fuel-indexed worker for the global replace; the fuel (initially the
input length) only serves structural recursion — every step strictly
shortens the input, so it never runs out. -/
def replaceScanF (m : Option Char → List Char → Option (List Char × List Char)) :
    Nat → Option Char → List Char → List Char
  | 0, _, l => l
  | _ + 1, _, [] => []
  | fuel + 1, prev, c :: cs =>
    match m prev (c :: cs) with
    | some (rep, rest) =>
      if rest.length ≤ cs.length then
        rep ++ replaceScanF m fuel (some (lastConsumed c cs rest)) rest
      else
        c :: replaceScanF m fuel (some c) cs
    | none => c :: replaceScanF m fuel (some c) cs

/-- Global replace (regex `g` flag): scan left to right; at each position try
the matcher (which receives the previous character for `\b` checks and
returns the replacement plus the rest of the input after the match); on a
match, emit the replacement and resume after the match. -/
def replaceScan (m : Option Char → List Char → Option (List Char × List Char))
    (prev : Option Char) (l : List Char) : List Char :=
  replaceScanF m l.length prev l

/-- Non-global replace: substitute only the first match. -/
def replaceFirstScan (m : Option Char → List Char → Option (List Char × List Char)) :
    Option Char → List Char → List Char
  | _, [] => []
  | prev, c :: cs =>
    match m prev (c :: cs) with
    | some (rep, rest) => rep ++ rest
    | none => c :: replaceFirstScan m (some c) cs

/-- Replace for a `^`-anchored non-global regex: try the matcher at position
0 only. -/
def replaceAt0 (m : Option Char → List Char → Option (List Char × List Char))
    (l : List Char) : List Char :=
  match m none l with
  | some (rep, rest) => rep ++ rest
  | none => l

/-- Matcher for a bare case-insensitive literal. -/
def ciLitM (lit rep : List Char) (_prev : Option Char) (l : List Char) :
    Option (List Char × List Char) :=
  match stripCI lit l with
  | some rest => some (rep, rest)
  | none => none

/-- Matcher for a case-insensitive literal wrapped in `\b ... \b`; the
literal starts and ends with word characters, so the boundaries reduce to
"no word character on either side". -/
def wordLitM (lit rep : List Char) (prev : Option Char) (l : List Char) :
    Option (List Char × List Char) :=
  if isWordOpt prev then none
  else
    match stripCI lit l with
    | some rest => if noWordHead rest then some (rep, rest) else none
    | none => none

/-- Matcher for a case-insensitive literal with a trailing `\b` only. -/
def tailBoundLitM (lit rep : List Char) (_prev : Option Char) (l : List Char) :
    Option (List Char × List Char) :=
  match stripCI lit l with
  | some rest => if noWordHead rest then some (rep, rest) else none
  | none => none

/-- Global case-insensitive literal replacement. -/
def replaceAllCI (lit rep : String) (l : List Char) : List Char :=
  replaceScan (ciLitM lit.data rep.data) none l

/-- Global case-sensitive literal replacement (used for `/\*\*/g`). -/
def csLitM (lit rep : List Char) (_prev : Option Char) (l : List Char) :
    Option (List Char × List Char) :=
  match stripCS lit l with
  | some rest => some (rep, rest)
  | none => none

/-- Replace the first exact occurrence of a literal (JavaScript
`String.replace` with a string pattern), leaving the text unchanged when the
literal does not occur. -/
def replaceOnceCS (lit rep : List Char) : List Char → List Char
  | [] => []
  | c :: cs =>
    match stripCS lit (c :: cs) with
    | some rest => rep ++ rest
    | none => c :: replaceOnceCS lit rep cs

/-- JavaScript `String.trim` on character lists. -/
def jsTrimL (l : List Char) : List Char :=
  (((l.dropWhile isWs).reverse).dropWhile isWs).reverse

/-- JavaScript `String.trim`. -/
def jsTrim (s : String) : String := ⟨jsTrimL s.data⟩

/-- JavaScript `String.toLowerCase` (ASCII-faithful). -/
def lowerStr (s : String) : String := ⟨s.data.map Char.toLower⟩

/-- Find the earliest `</think>` (case-insensitive) and return the input
after it; the lazy `[\s\S]*?` in the source regex means the nearest closing
tag ends the match. -/
def findCloseThink : List Char → Option (List Char)
  | [] => none
  | c :: cs =>
    match stripCI "</think>".data (c :: cs) with
    | some rest => some rest
    | none => findCloseThink cs

/-- Matcher for `/<think>[\s\S]*?<\/think>/gi`, replaced by the empty
string. -/
def thinkBlockM (_prev : Option Char) (l : List Char) :
    Option (List Char × List Char) :=
  match stripCI "<think>".data l with
  | none => none
  | some rest =>
    match findCloseThink rest with
    | none => none
    | some rest2 => some ([], rest2)

/-- Matcher for `/<\/?think>/gi`, replaced by the empty string. -/
def thinkTagM (_prev : Option Char) (l : List Char) :
    Option (List Char × List Char) :=
  match stripCI "<think>".data l with
  | some rest => some ([], rest)
  | none =>
    match stripCI "</think>".data l with
    | some rest => some ([], rest)
    | none => none

/-- Matcher for `/\*\*Answer:\*\*\s*/gi`, replaced by the empty string. -/
def answerBoldM (_prev : Option Char) (l : List Char) :
    Option (List Char × List Char) :=
  match stripCI "**Answer:**".data l with
  | some rest => some ([], wsStar rest)
  | none => none

/-- Matcher for `/Answer:\s*/gi`, replaced by the empty string. -/
def answerM (_prev : Option Char) (l : List Char) :
    Option (List Char × List Char) :=
  match stripCI "Answer:".data l with
  | some rest => some ([], wsStar rest)
  | none => none

/-- Matcher for `/\s*Helpful\s+/gi`, replaced by a single space. -/
def helpfulM (_prev : Option Char) (l : List Char) :
    Option (List Char × List Char) :=
  match stripCI "Helpful".data (wsStar l) with
  | some r1 =>
    match wsPlus r1 with
    | some r2 => some ([' '], r2)
    | none => none
  | none => none

/-- Continuation shared by the two "helpful" preamble patterns:
`helpful[:.]\s+`. -/
def helpfulTailM (l : List Char) : Option (List Char) :=
  match stripCI "helpful".data l with
  | some r1 =>
    match r1 with
    | c :: r2 => if c = ':' || c = '.' then wsPlus r2 else none
    | [] => none
  | none => none

/-- Matcher for `/^\s*I'll\s+(be\s+)?helpful[:.]\s+/i` (anchored,
non-global), replaced by the empty string; the optional `(be\s+)?` group is
tried greedily first, as the regex engine does. -/
def illHelpfulM (_prev : Option Char) (l : List Char) :
    Option (List Char × List Char) :=
  match stripCI "I'll".data (wsStar l) with
  | none => none
  | some r1 =>
    match wsPlus r1 with
    | none => none
    | some r2 =>
      match
        (match stripCI "be".data r2 with
         | some r3 =>
           match wsPlus r3 with
           | some r4 =>
             match helpfulTailM r4 with
             | some r5 => some r5
             | none => helpfulTailM r2
           | none => helpfulTailM r2
         | none => helpfulTailM r2) with
      | some r => some ([], r)
      | none => none

/-- Matcher for `/\s*Let\s+me\s+be\s+helpful[:.]\s+/i` (non-global),
replaced by the empty string. -/
def letMeBeHelpfulM (_prev : Option Char) (l : List Char) :
    Option (List Char × List Char) :=
  match stripCI "Let".data (wsStar l) with
  | none => none
  | some r1 =>
    match wsPlus r1 with
    | none => none
    | some r2 =>
      match stripCI "me".data r2 with
      | none => none
      | some r3 =>
        match wsPlus r3 with
        | none => none
        | some r4 =>
          match stripCI "be".data r4 with
          | none => none
          | some r5 =>
            match wsPlus r5 with
            | none => none
            | some r6 =>
              match helpfulTailM r6 with
              | some r7 => some ([], r7)
              | none => none

/-- Prepositions of `/\b(in|on|with|using|through|into|from|for|by|and|of) My\b/gi`,
in source order; alternatives are tried in order with backtracking. -/
def prepList : List String :=
  ["in", "on", "with", "using", "through", "into", "from", "for", "by", "and", "of"]

/-- Alternative-by-alternative attempt for the preposition-`My` pattern; on
success the captured preposition keeps its original characters and the
replacement is `$1 my`. -/
def prepMyTry : List String → List Char → Option (List Char × List Char)
  | [], _ => none
  | p :: ps, l =>
    match stripCI p.data l with
    | some r1 =>
      (match stripCI " My".data r1 with
       | some r2 =>
         if noWordHead r2 then some (l.take p.data.length ++ " my".data, r2)
         else prepMyTry ps l
       | none => prepMyTry ps l)
    | none => prepMyTry ps l

/-- Matcher for `/\b(in|on|...|of) My\b/gi` with replacement
`` `${preposition} my` ``. -/
def prepMyM (prev : Option Char) (l : List Char) :
    Option (List Char × List Char) :=
  if isWordOpt prev then none else prepMyTry prepList l

/-- Lazy search for the tail of `/I'm (.*?) with My\b/gi`: grow the capture
one (non-newline, as `.` requires) character at a time until
`" with My"` plus a trailing `\b` matches. -/
def imWithMySearchF : Nat → List Char → List Char → Option (List Char × List Char)
  | 0, _, _ => none
  | fuel + 1, capRev, l =>
    match stripCI " with My".data l with
    | some r =>
      if noWordHead r then some ("I'm ".data ++ capRev.reverse ++ " with my".data, r)
      else
        match l with
        | [] => none
        | c :: cs =>
          if c = '\n' || c = '\r' then none else imWithMySearchF fuel (c :: capRev) cs
    | none =>
      match l with
      | [] => none
      | c :: cs =>
        if c = '\n' || c = '\r' then none else imWithMySearchF fuel (c :: capRev) cs

/-- Entry point for the lazy search, with enough fuel for the whole input
(the fuel only serves structural recursion; each step consumes one
character). -/
def imWithMySearch (capRev : List Char) (l : List Char) :
    Option (List Char × List Char) :=
  imWithMySearchF (l.length + 1) capRev l

/-- Matcher for `/I'm (.*?) with My\b/gi` with replacement
`"I'm $1 with my"`. -/
def imWithMyM (_prev : Option Char) (l : List Char) :
    Option (List Char × List Char) :=
  match stripCI "I'm ".data l with
  | none => none
  | some r0 => imWithMySearch [] r0

/-- Matcher for `/\bMy ([a-z])/g` (case-sensitive) with replacement
`"my $1"`. -/
def myLowerM (prev : Option Char) (l : List Char) :
    Option (List Char × List Char) :=
  if isWordOpt prev then none
  else
    match stripCS "My ".data l with
    | some (c :: rest) =>
      if isLowerAscii c then some ("my ".data ++ [c], rest) else none
    | _ => none

/-- Matcher for `/\bMy\s+(\w+)\s+projects/gi` with replacement
`"my $1 projects"`. -/
def myProjectsM (prev : Option Char) (l : List Char) :
    Option (List Char × List Char) :=
  if isWordOpt prev then none
  else
    match stripCI "My".data l with
    | none => none
    | some r1 =>
      match wsPlus r1 with
      | none => none
      | some r2 =>
        let w := r2.takeWhile isWordC
        let r3 := r2.dropWhile isWordC
        if w.isEmpty then none
        else
          match wsPlus r3 with
          | none => none
          | some r4 =>
            match stripCI "projects".data r4 with
            | some r5 => some ("my ".data ++ w ++ " projects".data, r5)
            | none => none

/-- Matcher for `/\bI\s+[a-zA-Z]+ed\s+in\s+My\b/gi`; the replacement is the
matched text with its first exact occurrence of `"My"` replaced by `"my"`
(the arrow function `match => match.replace("My", "my")` in the source).
Greedy `[a-zA-Z]+` followed by the literal `ed` and then `\s+` forces the
letter run to be maximal and to end in `ed` (length at least 3). -/
def iEdInMyM (prev : Option Char) (l : List Char) :
    Option (List Char × List Char) :=
  if isWordOpt prev then none
  else
    match stripCI "I".data l with
    | none => none
    | some r1 =>
      if noWordHead r1 = false then none
      else
      match wsPlus r1 with
      | none => none
      | some r2 =>
        let run := r2.takeWhile isAsciiLetter
        let r3 := r2.dropWhile isAsciiLetter
        if 3 ≤ run.length &&
            (match run.reverse with
             | d :: e :: _ => d.toLower = 'd' && e.toLower = 'e'
             | _ => false) then
          match wsPlus r3 with
          | none => none
          | some r4 =>
            match stripCI "in".data r4 with
            | none => none
            | some r5 =>
              match wsPlus r5 with
              | none => none
              | some r6 =>
                match stripCI "My".data r6 with
                | none => none
                | some r7 =>
                  if noWordHead r7 then
                    some (replaceOnceCS "My".data "my".data
                          (l.take (l.length - r7.length)), r7)
                  else none
        else none

/-- Matcher for `/So,\s*:/gi`, replaced by the empty string. -/
def soColonM (_prev : Option Char) (l : List Char) :
    Option (List Char × List Char) :=
  match stripCI "So,".data l with
  | none => none
  | some r1 =>
    match wsStar r1 with
    | ':' :: r2 => some ([], r2)
    | _ => none

/-- Matcher for `/\. ([a-z])/g` with replacement
`` `. ${letter.toUpperCase()}` ``. -/
def dotLowerM (_prev : Option Char) (l : List Char) :
    Option (List Char × List Char) :=
  match l with
  | '.' :: ' ' :: c :: rest =>
    if isLowerAscii c then some (['.', ' ', c.toUpper], rest) else none
  | _ => none

/-- Lookahead `(?=\s+[A-Z])`: whitespace then an ASCII uppercase letter. -/
def wsUpperAhead (l : List Char) : Bool :=
  match wsPlus l with
  | some r =>
    (match r with
     | c :: _ => isUpperAscii c
     | [] => false)
  | none => false

/-- Worker for `text.split(/(?<=\.)(?=\s+[A-Z])/)`: the reversed accumulator
holds the current part; a cut happens between a `.` just consumed and a
position whose input satisfies the lookahead. -/
def splitPartsAux : List Char → List Char → List (List Char)
  | acc, [] => [acc.reverse]
  | acc, c :: cs =>
    if acc.head? = some '.' && wsUpperAhead (c :: cs) then
      acc.reverse :: splitPartsAux [c] cs
    else
      splitPartsAux (c :: acc) cs

/-- `text.split(/(?<=\.)(?=\s+[A-Z])/)`. -/
def splitParts (l : List Char) : List (List Char) := splitPartsAux [] l

/-- Test of `/I.*?My/i` on one sentence part: a (case-insensitive) `i`
followed, with no intervening newline (`.` does not cross lines), by a
(case-insensitive) `my`. -/
def myAfterNoNewline : List Char → Bool
  | [] => false
  | c :: cs =>
    (stripCI "My".data (c :: cs)).isSome ||
      (if c = '\n' || c = '\r' then false else myAfterNoNewline cs)

/-- Test of `/I.*?My/i` on a sentence part. -/
def iMyTest : List Char → Bool
  | [] => false
  | c :: cs => (c.toLower = 'i' && myAfterNoNewline cs) || iMyTest cs

/-- Filter of the sentence-cleaning block (route.ts lines 249-262): a part is
kept when it does not contain `" has "`, `" uses "` or `"So, :"` and does not
match `/I.*?My/i`. -/
def sentenceKeep (s : List Char) : Bool :=
  !hasCS " has ".data s && !hasCS " uses ".data s && !hasCS "So, :".data s &&
    !iMyTest s

/-- Sentence-cleaning block (route.ts lines 249-262): when the
lookbehind/lookahead split yields more than two parts, drop the "unclean"
parts and rejoin with single spaces — unless that would drop everything, in
which case the text is left unchanged. -/
def filterBlock (l : List Char) : List Char :=
  let parts := splitParts l
  if 2 < parts.length then
    let cleaned := parts.filter sentenceKeep
    if cleaned.isEmpty then l else List.intercalate [' '] cleaned
  else l

/-- Sentence terminator class `[.!?]` of the dedup regex
`/[^.!?]+[.!?]+/g`. -/
def isSentEnd (c : Char) : Bool := c = '.' || c = '!' || c = '?'

/-- All matches of `/[^.!?]+[.!?]+/g`: JavaScript `text.match(...) || []`.
Each match is a maximal run of non-terminators followed by a maximal run of
terminators; leading terminators and a trailing unterminated run match
nothing. -/
def sentencesAuxF : Nat → List Char → List (List Char)
  | 0, _ => []
  | _ + 1, [] => []
  | fuel + 1, c :: cs =>
    if isSentEnd c then sentencesAuxF fuel cs
    else
      let body := (c :: cs).takeWhile (fun d => !isSentEnd d)
      let r1 := (c :: cs).dropWhile (fun d => !isSentEnd d)
      let terms := r1.takeWhile isSentEnd
      let r2 := r1.dropWhile isSentEnd
      if terms.isEmpty then [] else (body ++ terms) :: sentencesAuxF fuel r2

/-- Entry point for the sentence matcher, with enough fuel for the whole
input (each step strictly shortens the input). -/
def sentencesAux (l : List Char) : List (List Char) := sentencesAuxF l.length l

/-- Fuel-indexed worker collapsing whitespace runs to single spaces. -/
def collapseWsF : Nat → List Char → List Char
  | 0, l => l
  | _ + 1, [] => []
  | fuel + 1, c :: cs =>
    if isWs c then ' ' :: collapseWsF fuel (cs.dropWhile isWs)
    else c :: collapseWsF fuel cs

/-- Collapse whitespace runs to single spaces: `replace(/\s+/g, ' ')`. -/
def collapseWs (l : List Char) : List Char := collapseWsF l.length l

/-- Dedup key of a sentence:
`sentence.toLowerCase().replace(/\s+/g, ' ').trim()`. -/
def dedupKeyL (s : List Char) : List Char :=
  jsTrimL (collapseWs (s.map Char.toLower))

/-- Dedup loop of route.ts lines 272-282: keep the first sentence for each
distinct key, pushing its trimmed form; `seen` models the `sentenceMap`. -/
def dedupChunksGo : List (List Char) → List (List Char) → List (List Char)
  | _, [] => []
  | seen, s :: rest =>
    if dedupKeyL s ∈ seen then dedupChunksGo seen rest
    else jsTrimL s :: dedupChunksGo (dedupKeyL s :: seen) rest

/-- Whole dedup stage (route.ts lines 271-285): split into sentences, keep
first occurrences, rejoin with single spaces. -/
def dedupStage (l : List Char) : List Char :=
  List.intercalate [' '] (dedupChunksGo [] (sentencesAux l))

/-- Stages 1-4 of `cleanModelResponse` (route.ts lines 178-285): every
substitution applied to `text`, in source order, before the intent-override
checks.  Each step is annotated with the regex it implements. -/
def transformChain (l : List Char) : List Char :=
  -- text.replace(/<think>[\s\S]*?<\/think>/gi, '')
  let t := replaceScan thinkBlockM none l
  -- text.replace(/<\/?think>/gi, '')
  let t := replaceScan thinkTagM none t
  -- text.replace(/\*\*Answer:\*\*\s*/gi, '')
  let t := replaceScan answerBoldM none t
  -- text.replace(/Answer:\s*/gi, '')
  let t := replaceScan answerM none t
  -- text.replace(/\s*Helpful\s+/gi, ' ')
  let t := replaceScan helpfulM none t
  -- text.replace(/^\s*I'll\s+(be\s+)?helpful[:.]\s+/i, '')
  let t := replaceAt0 illHelpfulM t
  -- text.replace(/\s*Let\s+me\s+be\s+helpful[:.]\s+/i, '')
  let t := replaceFirstScan letMeBeHelpfulM none t
  -- text.replace(/\*\*/g, '')
  let t := replaceScan (csLitM "**".data []) none t
  -- text.replace(/\b(in|on|with|using|through|into|from|for|by|and|of) My\b/gi, ...)
  let t := replaceScan prepMyM none t
  -- text.replace(/I'm (.*?) with My\b/gi, "I'm $1 with my")
  let t := replaceScan imWithMyM none t
  -- text.replace(/I's got/gi, "I've got")
  let t := replaceAllCI "I's got" "I've got" t
  -- text.replace(/I's set/gi, "I'm set")
  let t := replaceAllCI "I's set" "I'm set" t
  -- text.replace(/\bMy ([a-z])/g, "my $1")
  let t := replaceScan myLowerM none t
  -- text.replace(/Abdul Mohiz is expected/gi, "I'm expected")
  let t := replaceAllCI "Abdul Mohiz is expected" "I'm expected" t
  -- text.replace(/Abdul Mohiz is/gi, "I am")
  let t := replaceAllCI "Abdul Mohiz is" "I am" t
  -- text.replace(/Abdul Mohiz has/gi, "I have")
  let t := replaceAllCI "Abdul Mohiz has" "I have" t
  -- text.replace(/Abdul Mohiz will/gi, "I will")
  let t := replaceAllCI "Abdul Mohiz will" "I will" t
  -- text.replace(/Abdul Mohiz was/gi, "I was")
  let t := replaceAllCI "Abdul Mohiz was" "I was" t
  -- text.replace(/Abdul Mohiz's/gi, "my")
  let t := replaceAllCI "Abdul Mohiz's" "my" t
  -- text.replace(/Abdul Mohiz/gi, "I")
  let t := replaceAllCI "Abdul Mohiz" "I" t
  -- text.replace(/He is expected/gi, "I'm expected")
  let t := replaceAllCI "He is expected" "I'm expected" t
  -- text.replace(/He will/gi, "I will")
  let t := replaceAllCI "He will" "I will" t
  -- text.replace(/He has/gi, "I have")
  let t := replaceAllCI "He has" "I have" t
  -- text.replace(/He was/gi, "I was")
  let t := replaceAllCI "He was" "I was" t
  -- text.replace(/\bHe\b/gi, "I")
  let t := replaceScan (wordLitM "He".data "I".data) none t
  -- text.replace(/\bHis\b/gi, "My")
  let t := replaceScan (wordLitM "His".data "My".data) none t
  -- text.replace(/\bhis\b/gi, "my")
  let t := replaceScan (wordLitM "his".data "my".data) none t
  -- text.replace(/I amn't/gi, "I'm not")
  let t := replaceAllCI "I amn't" "I'm not" t
  -- text.replace(/for I\b/gi, "for me")
  let t := replaceScan (tailBoundLitM "for I".data "for me".data) none t
  -- text.replace(/I am's/gi, "my")
  let t := replaceAllCI "I am's" "my" t
  -- text.replace(/\bI am\b/gi, "I'm")
  let t := replaceScan (wordLitM "I am".data "I'm".data) none t
  -- text.replace(/I have provided/gi, "I've provided")
  let t := replaceAllCI "I have provided" "I've provided" t
  -- text.replace(/I have used/gi, "I've used")
  let t := replaceAllCI "I have used" "I've used" t
  -- text.replace(/I have worked/gi, "I've worked")
  let t := replaceAllCI "I have worked" "I've worked" t
  -- text.replace(/not familiar with I/gi, "haven't")
  let t := replaceAllCI "not familiar with I" "haven't" t
  -- text.replace(/\bI does not\b/gi, "I don't")
  let t := replaceScan (wordLitM "I does not".data "I don't".data) none t
  -- text.replace(/\bI do not\b/gi, "I don't")
  let t := replaceScan (wordLitM "I do not".data "I don't".data) none t
  -- text.replace(/\bI has\b/gi, "I've")
  let t := replaceScan (wordLitM "I has".data "I've".data) none t
  -- text.replace(/\bI uses\b/gi, "I use")
  let t := replaceScan (wordLitM "I uses".data "I use".data) none t
  -- text.replace(/\bI works\b/gi, "I work")
  let t := replaceScan (wordLitM "I works".data "I work".data) none t
  -- text.replace(/\bMy\s+(\w+)\s+projects/gi, "my $1 projects")
  let t := replaceScan myProjectsM none t
  -- text.replace(/\bI\s+[a-zA-Z]+ed\s+in\s+My\b/gi, m => m.replace("My", "my"))
  let t := replaceScan iEdInMyM none t
  -- text.replace(/So,\s*:/gi, "")
  let t := replaceScan soColonM none t
  -- sentence-filter block, lines 249-262
  let t := filterBlock t
  -- text.replace(/The answer is that/gi, "")
  let t := replaceAllCI "The answer is that" "" t
  -- text.replace(/The answer is/gi, "")
  let t := replaceAllCI "The answer is" "" t
  -- text.replace(/\. ([a-z])/g, ". " + upper)
  let t := replaceScan dotLowerM none t
  -- sentence deduplication, lines 271-285
  dedupStage t

/-- Transform stages of `cleanModelResponse` lifted to `String`. -/
def transformStages (s : String) : String := ⟨transformChain s.data⟩

/-- Greeting alternatives of
`/^(hi|hello|hey|greetings|howdy|hii+|sup|yo)[\s!]*$/i`; the `hii+` case is
handled separately below. -/
def greetWords : List String := ["hi", "hello", "hey", "greetings", "howdy", "sup", "yo"]

/-- Remainder check `[\s!]*$`: everything left must be whitespace or `!`. -/
def onlyWsBang (l : List Char) : Bool := l.all (fun c => isWs c || c = '!')

/-- Test of `/^(hi|hello|hey|greetings|howdy|hii+|sup|yo)[\s!]*$/i` on the
trimmed message (route.ts line 291): some alternative matches and the rest of
the string is `[\s!]*`. -/
def greetingTest (t : String) : Bool :=
  (greetWords.any fun w =>
    match stripCI w.data t.data with
    | some r => onlyWsBang r
    | none => false) ||
  (match stripCI "hii".data t.data with
   | some r => onlyWsBang (r.dropWhile (fun c => c.toLower = 'i'))
   | none => false)

/-- Case-insensitive whole-string equality. -/
def eqCI (t : String) (lit : String) : Bool :=
  match stripCI lit.data t.data with
  | some r => r.isEmpty
  | none => false

/-- Case-insensitive prefix test. -/
def startsCI (t : String) (lit : String) : Bool := (stripCI lit.data t.data).isSome

/-- Test of
`/^how are you(\??|\s|$)|^how('s| is) it going|^how('s| have) you been|^what'?s up$/i`
on the trimmed message (route.ts line 296).  The group `(\??|\s|$)` always
matches (its first alternative can be empty), so the first alternative is
exactly the prefix `how are you`. -/
def convTest (t : String) : Bool :=
  startsCI t "how are you" ||
  startsCI t "how's it going" || startsCI t "how is it going" ||
  startsCI t "how's you been" || startsCI t "how have you been" ||
  eqCI t "what's up" || eqCI t "whats up"

/-- Test of `/shopify|used shopify|shopify experience|worked (with|on) shopify/i`
(route.ts line 301); the disjunction mirrors the source alternatives (the
first already subsumes the others). -/
def shopifyTest (q : String) : Bool :=
  hasCI "shopify".data q.data || hasCI "used shopify".data q.data ||
  hasCI "shopify experience".data q.data ||
  hasCI "worked with shopify".data q.data || hasCI "worked on shopify".data q.data

/-- Match `\d+\s*[\+\-\*\/]\s*\d+` at the current position; returns the rest
of the input after the second digit run. -/
def binExprAt (l : List Char) : Option (List Char) :=
  let d1 := l.takeWhile isDigitC
  let r1 := l.dropWhile isDigitC
  if d1.isEmpty then none
  else
    match wsStar r1 with
    | c :: r2 =>
      if c = '+' || c = '-' || c = '*' || c = '/' then
        let r3 := wsStar r2
        let d2 := r3.takeWhile isDigitC
        if d2.isEmpty then none else some (r3.dropWhile isDigitC)
      else none
    | [] => none

/-- First alternative of the math pattern,
`\d+\s*[\+\-\*\/]\s*\d+\s*=\s*\?`, tested at the current position. -/
def mathAltA (l : List Char) : Bool :=
  match binExprAt l with
  | some r =>
    (match wsStar r with
     | '=' :: r2 =>
       (match wsStar r2 with
        | '?' :: _ => true
        | _ => false)
     | _ => false)
  | none => false

/-- Second alternative of the math pattern,
`what('s| is)\s+\d+\s*[\+\-\*\/]\s*\d+`, tested at the current position. -/
def mathAltB (l : List Char) : Bool :=
  match stripCI "what".data l with
  | none => false
  | some r1 =>
    let afterGroup : Option (List Char) :=
      match stripCI "'s".data r1 with
      | some r2 => some r2
      | none => stripCI " is".data r1
    match afterGroup with
    | none => false
    | some r2 =>
      match wsPlus r2 with
      | some r3 => (binExprAt r3).isSome
      | none => false

/-- Scan for the math pattern at every position. -/
def mathTestAux : List Char → Bool
  | [] => false
  | c :: cs => mathAltA (c :: cs) || mathAltB (c :: cs) || mathTestAux cs

/-- Test of the math pattern (route.ts line 306):
`/(\d+\s*[\+\-\*\/]\s*\d+\s*=\s*\?)|what('s| is)\s+(\d+\s*[\+\-\*\/]\s*\d+)/i`,
searched anywhere in the message. -/
def mathTest (q : String) : Bool := mathTestAux q.data

/-- Leftmost match of the extraction regex
`/(\d+)\s*([\+\-\*\/])\s*(\d+)/` (route.ts line 309), returning the three
captures.  Greedy `\d+` never needs backtracking here: shortening a digit
run leaves a digit where the operator must be. -/
def mathMatchesAuxF : Nat → List Char → Option (List Char × Char × List Char)
  | 0, _ => none
  | _ + 1, [] => none
  | fuel + 1, c :: cs =>
    if isDigitC c then
      let d1 := (c :: cs).takeWhile isDigitC
      let r1 := (c :: cs).dropWhile isDigitC
      (match wsStar r1 with
       | o :: r2 =>
         if o = '+' || o = '-' || o = '*' || o = '/' then
           let r3 := wsStar r2
           let d2 := r3.takeWhile isDigitC
           if d2.isEmpty then mathMatchesAuxF fuel r1 else some (d1, o, d2)
         else mathMatchesAuxF fuel r1
       | [] => none)
    else mathMatchesAuxF fuel cs

/-- Entry point for the extraction scan, with enough fuel for the whole
input (each step strictly shortens the input: a failing digit run is skipped
whole, which is sound because a shorter run would fail identically). -/
def mathMatchesAux (l : List Char) : Option (List Char × Char × List Char) :=
  mathMatchesAuxF l.length l

/-- Digits to a natural number (JavaScript `parseInt` on a `\d+` capture). -/
def digitsToNat (l : List Char) : Nat :=
  l.foldl (fun a c => a * 10 + (c.toNat - '0'.toNat)) 0

/-- The `switch (operator)` of route.ts lines 316-321, producing the
interpolated `` `${result}` `` string.  `+`, `-` and `*` are exact integer
arithmetic (faithful to JavaScript doubles for operands below 2^53, which
covers every input in this development).  For `/`, JavaScript performs
floating-point division; the integer and degenerate cases are modelled
exactly, and the representation of a non-integer quotient is left as an
opaque marker — no theorem in this file depends on that branch. -/
def mathResult (a : Nat) (op : Char) (b : Nat) : String :=
  if op = '+' then toString ((a : Int) + b)
  else if op = '-' then toString ((a : Int) - b)
  else if op = '*' then toString ((a : Int) * b)
  else if op = '/' then
    if b = 0 then (if a = 0 then "NaN" else "Infinity")
    else if a % b = 0 then toString ((a : Int) / b)
    else "non-integer-quotient"
  else "undefined"

/-- The math override's computed answer: extraction plus the switch; `none`
when the extraction regex finds no match (the `if (matches)` guard). -/
def mathAnswer (q : String) : Option String :=
  match mathMatchesAux q.data with
  | some (d1, op, d2) => some (mathResult (digitsToNat d1) op (digitsToNat d2))
  | none => none

/-- Test of `/what (day|month|year) is (it|today|now)/i` or
`/what is the (date|time) (today|now)/i` (route.ts lines 328-329); the
alternations expand to a disjunction of literal substring tests. -/
def dateTest (q : String) : Bool :=
  (["day", "month", "year"].any fun w =>
    ["it", "today", "now"].any fun v =>
      hasCI ("what " ++ w ++ " is " ++ v).data q.data) ||
  (["date", "time"].any fun w =>
    ["today", "now"].any fun v =>
      hasCI ("what is the " ++ w ++ " " ++ v).data q.data)

/-- Test of `/how many (days|hours) (are|is) (in|there in) a (week|day)/i`
(route.ts line 335), expanded to literal substring tests (all alternatives
are mutually exclusive at any given position). -/
def dhTest (q : String) : Bool :=
  ["days", "hours"].any fun w =>
    ["are", "is"].any fun v =>
      ["in", "there in"].any fun u =>
        ["week", "day"].any fun x =>
          hasCI ("how many " ++ w ++ " " ++ v ++ " " ++ u ++ " a " ++ x).data q.data

/-- Inner branches of the days/hours handler (route.ts lines 336-340): the
`week` check wins, then `day`; if neither substring occurs in the lowercased
message, control falls through to the rest of the function. -/
def dhAnswer (q : String) : Option String :=
  if hasCS "week".data (lowerStr q).data then some "There are 7 days in a week."
  else if hasCS "day".data (lowerStr q).data then some "There are 24 hours in a day."
  else none

/-- One multi-word term of the personal-information pattern, matched at the
current position: the words joined by `\s+`, with a `\b` after the last
word (all terms start and end with word characters). -/
def matchWordSeq : List String → List Char → Bool
  | [], l => noWordHead l
  | [w], l =>
    (match stripCI w.data l with
     | some r => noWordHead r
     | none => false)
  | w :: ws, l =>
    match stripCI w.data l with
    | some r =>
      (match wsPlus r with
       | some r2 => matchWordSeq ws r2
       | none => false)
    | none => false

/-- Terms of the personal-information pattern (route.ts line 344), each
`\b`-delimited, multi-word terms joined by `\s+`; `rethnicity` preserves the
source's typo. -/
def personalTerms : List (List String) :=
  [["age"], ["dob"], ["date", "of", "birth"], ["birthday"], ["born"],
   ["when", "were", "you", "born"], ["how", "old"], ["address"], ["location"],
   ["phone"], ["email"], ["contact"], ["family"], ["parents"], ["married"],
   ["wife"], ["husband"], ["children"], ["kids"], ["sibling"], ["religion"],
   ["rethnicity"]]

/-- Scan for a `\b`-delimited term anywhere, tracking the previous character
for the leading boundary. -/
def scanWordSeq (ws : List String) : Option Char → List Char → Bool
  | _, [] => false
  | prev, c :: cs =>
    (!isWordOpt prev && matchWordSeq ws (c :: cs)) || scanWordSeq ws (some c) cs

/-- Test of the personal-information pattern (route.ts line 344). -/
def personalTest (q : String) : Bool :=
  personalTerms.any fun ws => scanWordSeq ws none q.data

/-- Canned greeting answer (route.ts line 292). -/
def greetingText : String :=
  "Hi there! I'm Abdul Mohiz. Thanks for visiting my portfolio! Feel free to ask me anything about my experience, skills, projects, or background."

/-- Canned small-talk answer (route.ts line 297). -/
def convText : String :=
  "I'm doing well, thanks for asking! I'm currently working on some exciting web development projects and continuing my studies in Computer Science. How can I help you today?"

/-- Canned Shopify answer (route.ts line 302). -/
def shopifyText : String :=
  "Yes, I've worked with Shopify as a Designer on Upwork (2023-2024). I built e-commerce stores from scratch, optimized product pages for SEO, and managed inventory and customer interactions."

/-- Date answer (route.ts line 331); `now` stands for the value of
`new Date().toLocaleDateString(...)`, the one impure input of the
function, passed in explicitly. -/
def dateText (now : String) : String := "It's " ++ now ++ "."

/-- Fixed personal-information refusal (route.ts line 345). -/
def personalText : String := "I prefer not to share that personal information."

/-- Fixed "no information" redirect (route.ts line 385). -/
def noInfoText : String :=
  "I don't have that information in my background. Feel free to ask me about my skills, education, or projects instead."

/-- Intent-override cascade of route.ts lines 291-346, evaluated in source
order on the original message; `none` means control reaches the concision /
list / fallback stages.  The math and days/hours branches can fall through
when their outer test fires but the inner extraction finds nothing, exactly
as in the source. -/
def overrideResp (q now : String) : Option String :=
  if greetingTest (jsTrim q) then some greetingText
  else if convTest (jsTrim q) then some convText
  else if shopifyTest q then some shopifyText
  else
    match (if mathTest q then mathAnswer q else none) with
    | some r => some r
    | none =>
      if dateTest q then some (dateText now)
      else
        match (if dhTest q then dhAnswer q else none) with
        | some r => some r
        | none => if personalTest q then some personalText else none

/-- First space-separated token of the message:
`originalMessage.split(' ')[0]` is the prefix before the first space. -/
def firstWord (q : String) : List Char := q.data.takeWhile (fun c => !(c = ' '))

/-- Leftmost match of the work pattern `/(I('ve| have)? worked[^.]+\.)/i`
(route.ts line 358), returning the whole match; alternatives of the optional
group are tried in order (`'ve`, ` have`, empty). -/
def workMatchAt (l : List Char) : Option (List Char) :=
  match stripCI "I".data l with
  | none => none
  | some r1 =>
    let tryTail : List Char → Option (List Char) := fun r =>
      match stripCI " worked".data r with
      | none => none
      | some r2 =>
        let body := r2.takeWhile (fun c => !(c = '.'))
        let r3 := r2.dropWhile (fun c => !(c = '.'))
        if body.isEmpty then none
        else
          match r3 with
          | '.' :: r4 => some r4
          | _ => none
    match
      (match stripCI "'ve".data r1 with
       | some r2 =>
         (match tryTail r2 with
          | some r => some r
          | none => tryTail r1)
       | none =>
         match stripCI " have".data r1 with
         | some r2 =>
           (match tryTail r2 with
            | some r => some r
            | none => tryTail r1)
         | none => tryTail r1) with
    | some rest => some (l.take (l.length - rest.length))
    | none => none

/-- Scan for the work pattern anywhere; returns the leftmost whole match. -/
def workMatchScan : List Char → Option (List Char)
  | [] => none
  | c :: cs =>
    match workMatchAt (c :: cs) with
    | some m => some m
    | none => workMatchScan cs

/-- Concision stage (route.ts lines 348-364): when the text exceeds 200
characters, prefer the first two lookaround-split parts joined by a single
space if that is longer than 20 characters and contains the first word of
the message; otherwise, if the text mentions working, replace it with the
trimmed first match of the work pattern; otherwise leave it unchanged. -/
def concisionStage (t : String) (q : String) : String :=
  if 200 < t.length then
    let firstFew : List Char := List.intercalate [' '] ((splitParts t.data).take 2)
    if 20 < firstFew.length && hasCS (firstWord q) firstFew then ⟨firstFew⟩
    else if hasCS "I worked".data t.data || hasCS "I've worked".data t.data ||
        hasCS "I have worked".data t.data then
      match workMatchScan t.data with
      | some m => ⟨jsTrimL m⟩
      | none => t
    else t
  else t

/-- Scan for `/\d\.\s/` — a digit, a dot, a whitespace character — at every
position. -/
def digitDotWsScan : List Char → Bool
  | [] => false
  | c :: cs =>
    (match cs with
     | '.' :: d :: _ => isDigitC c && isWs d
     | _ => false) || digitDotWsScan cs

/-- List-format condition (route.ts lines 367-370): the text contains a
bullet marker or matches `/\d\.\s/`, and the lowercased message mentions
skills, project or experience. -/
def listCond (t q : String) : Bool :=
  (hasCS "• ".data t.data || digitDotWsScan t.data) &&
    (hasCS "skills".data (lowerStr q).data || hasCS "project".data (lowerStr q).data ||
     hasCS "experience".data (lowerStr q).data)

/-- Matcher for `/(\d\.)\s+([^.]+)/g` with replacement `'<br><br>$1 $2'`
(route.ts line 372). -/
def numListM (_prev : Option Char) (l : List Char) :
    Option (List Char × List Char) :=
  match l with
  | d :: '.' :: rest =>
    if isDigitC d then
      match wsPlus rest with
      | some r2 =>
        let body := r2.takeWhile (fun c => !(c = '.'))
        let r3 := r2.dropWhile (fun c => !(c = '.'))
        if body.isEmpty then none
        else some ("<br><br>".data ++ [d, '.', ' '] ++ body, r3)
      | none => none
    else none
  | _ => none

/-- Matcher for `/•\s+([^.]+)/g` with replacement `'<br>• $1'`
(route.ts line 373). -/
def bulletM (_prev : Option Char) (l : List Char) :
    Option (List Char × List Char) :=
  match l with
  | '•' :: rest =>
    match wsPlus rest with
    | some r2 =>
      let body := r2.takeWhile (fun c => !(c = '.'))
      let r3 := r2.dropWhile (fun c => !(c = '.'))
      if body.isEmpty then none
      else some ("<br>• ".data ++ body, r3)
    | none => none
  | _ => none

/-- List-format stage (route.ts lines 371-374); its branch returns without
the final trim or fallback. -/
def listStage (t : String) : String :=
  ⟨replaceScan bulletM none (replaceScan numListM none t.data)⟩

/-- Test of the four "no information" patterns (route.ts lines 381-384),
with each alternation expanded to literal substring tests. -/
def noInfoTest (t : String) : Bool :=
  (["given context", "context", "information", "data"].any fun w =>
    hasCI ("not provided in the " ++ w).data t.data) ||
  (["that", "this", "the"].any fun w =>
    hasCI ("don't have " ++ w ++ " information").data t.data) ||
  (["no information is available", "no information available",
    "no information is provided", "no information provided"].any fun w =>
    hasCI w.data t.data) ||
  hasCI "unable to determine".data t.data || hasCI "cannot determine".data t.data ||
  hasCI "don't know".data t.data

/-- Fallback stage (route.ts lines 380-386): replace a "no information"
answer by the fixed redirect. -/
def noInfoFallback (t : String) : String :=
  if noInfoTest t then noInfoText else t

/-- Stages after the overrides (route.ts lines 348-388): concision trim,
then either the early-returning list formatting or trim plus fallback. -/
def afterOverride (t : String) (q : String) : String :=
  let t2 := concisionStage t q
  if listCond t2 q then listStage t2
  else noInfoFallback (jsTrim t2)

/-- The whole of `cleanModelResponse(text, originalMessage)`.  In the source
the substitution stages run before the override checks, but the overrides
depend only on the original message, so the function factors as: compute the
transformed text, return the first matching override if any, otherwise run
the remaining stages on the transformed text.  `now` is the formatted
current date used by the date override. -/
def cleanModelResponse (text q now : String) : String :=
  let t := transformStages text
  match overrideResp q now with
  | some r => r
  | none => afterOverride t q

/-- Units enqueued by the streaming branch (route.ts lines 519-524): one
chunk per character of the cleaned text, in order
(`controller.enqueue(encoder.encode(cleanedText.charAt(i)))`). -/
def streamUnitsOf (raw q now : String) : List String :=
  (cleanModelResponse raw q now).data.map (fun c => String.singleton c)

/-- Concatenation of delivered stream units. -/
def concatUnits (us : List String) : List Char := (us.map String.data).flatten

/-- Decidable equality for the generation outcome type. -/
instance : DecidableEq (Except String String) := fun a b =>
  match a, b with
  | .ok x, .ok y =>
    if h : x = y then .isTrue (by rw [h]) else .isFalse (by simp [h])
  | .error x, .error y =>
    if h : x = y then .isTrue (by rw [h]) else .isFalse (by simp [h])
  | .ok _, .error _ => .isFalse (by simp)
  | .error _, .ok _ => .isFalse (by simp)

/-- Outcome of `Promise.race([responsePromise, timeoutPromise])`
(route.ts lines 548-559): the generation promise settles after
`genDelayMs`; the timeout promise rejects at 90000 ms
(`setTimeout(..., 90000)`), so generation wins exactly when it settles
strictly first. -/
inductive RaceResult where
  | settled (r : Except String String)
  | timedOut
  deriving DecidableEq

/-- Message of the timeout rejection (route.ts line 549). -/
def timeoutMessage : String := "Request timed out after 90 seconds"

/-- The race, as a function of the generation delay and outcome. -/
def raceWithTimeout (genDelayMs : Nat) (gen : Except String String) : RaceResult :=
  if genDelayMs < 90000 then .settled gen else .timedOut

/-- Responses produced by the POST handler: a 200 JSON `{ response }`, an
error JSON `{ error }` with a status, or a streamed plain-text body (a list
of delivered units) with a status. -/
inductive PostResponse where
  | ok (body : String)
  | err (msg : String) (status : Nat)
  | streamBody (units : List String) (status : Nat)
  deriving DecidableEq

/-- Whether a response is an `{ error }` payload. -/
def isErrPayload : PostResponse → Bool
  | .err _ _ => true
  | _ => false

/-- Non-streaming branch of the POST handler after successful
initialisation (route.ts lines 546-575): race the generation against the 90 s
timeout; a raw completion is cleaned and returned as `{ response }`; a
rejection — of the generation or of the timeout — is caught at line 568 and
wrapped into a 500 `{ error: "Error processing your request: ..." }`. -/
def nonStreamingResult (q now : String) (genDelayMs : Nat)
    (gen : Except String String) : PostResponse :=
  match raceWithTimeout genDelayMs gen with
  | .timedOut => .err ("Error processing your request: " ++ timeoutMessage) 500
  | .settled (.error e) => .err ("Error processing your request: " ++ e) 500
  | .settled (.ok raw) => .ok (cleanModelResponse raw q now)

/-- Streaming branch of the POST handler (route.ts lines 502-544): the
`Response` is created with default status 200; on success the cleaned text
is enqueued character by character; on a generation error the catch at line
527 enqueues the single chunk `"Error: " + message` into the same 200
stream and closes it — no `{ error }` payload and no non-2xx status. -/
def streamingResult (q now : String) (gen : Except String String) : PostResponse :=
  match gen with
  | .ok raw => .streamBody (streamUnitsOf raw q now) 200
  | .error e => .streamBody ["Error: " ++ e] 200

/-- Module-level initialisation state of route.ts lines 12-18: the flags and
caches (`vectorStore`, `chain`, `isInitializing`, `isInitialized`,
`initPromise`), plus two ghost fields used only in specifications: a
build-start counter and a supply of fresh promise identities. -/
structure InitState where
  vectorStore : Bool
  chain : Bool
  isInitializing : Bool
  isInitialized : Bool
  initPromise : Option Nat
  buildCount : Nat
  nextId : Nat
  deriving DecidableEq

/-- State before any call: all flags false, no cached promise. -/
def initState0 : InitState :=
  { vectorStore := false, chain := false, isInitializing := false,
    isInitialized := false, initPromise := none, buildCount := 0, nextId := 1 }

/-- What a call to the init entry point returns: the cached
`{ vectorStore, chain }` pair, or an in-flight build promise identified by a
ghost id. -/
inductive InitResult where
  | cached
  | promise (id : Nat)
  deriving DecidableEq

/-- One call to the init entry point (route.ts lines 63-165).  The body has
no `await` before the promise is created and published, so on the
single-threaded event loop each call runs this section atomically:
if initialised with both caches present, return them; else if a build is in
flight (`isInitializing && initPromise`), return the same promise; else set
`isInitializing`, create and publish a fresh promise and return it
(incrementing the ghost build counter). -/
def initializeCall (s : InitState) : InitState × InitResult :=
  if s.isInitialized && s.vectorStore && s.chain then (s, .cached)
  else if s.isInitializing && s.initPromise.isSome then
    (s, .promise (s.initPromise.getD 0))
  else
    ({ s with isInitializing := true, initPromise := some s.nextId,
              nextId := s.nextId + 1, buildCount := s.buildCount + 1 },
      .promise s.nextId)

/-- Completion of a successful build (route.ts lines 125, 138, 152): the
caches are published and `isInitialized` is set (the source never clears
`isInitializing` on success). -/
def buildSucceed (s : InitState) : InitState :=
  { s with vectorStore := true, chain := true, isInitialized := true }

/-- Completion of a failed build: the catch block of route.ts lines 154-161
clears `isInitializing` and `isInitialized` and discards `initPromise`
before re-throwing, leaving the state equivalent to Uninitialized. -/
def buildFail (s : InitState) : InitState :=
  { s with isInitializing := false, isInitialized := false, initPromise := none }

/-- `n` consecutive calls to the init entry point, returning the final state
and every returned result. -/
def callN : Nat → InitState → InitState × List InitResult
  | 0, s => (s, [])
  | n + 1, s =>
    let p := initializeCall s
    let r := callN n p.1
    (r.1, p.2 :: r.2)

/-- State after the first call from `initState0`: a build is in flight with
promise id 1. -/
def inFlight1 : InitState :=
  { vectorStore := false, chain := false, isInitializing := true,
    isInitialized := false, initPromise := some 1, buildCount := 1, nextId := 2 }

/-- Reference first-occurrence filter for the dedup loop: keep each sentence
whose key has not been seen (untrimmed), in order.  Used to characterise
`dedupChunksGo`. -/
def firstOccsL : List (List Char) → List (List Char) → List (List Char)
  | _, [] => []
  | seen, s :: rest =>
    if dedupKeyL s ∈ seen then firstOccsL seen rest
    else s :: firstOccsL (dedupKeyL s :: seen) rest

/-- POST handler on an already-Ready state (`isInitialized` with both caches
present): the call to the init entry point returns the cached pair without
mutation, the `isInitialized = true` write at route.ts line 435 is idempotent
on such a state, and neither catch block (lines 527-532, 568-575) writes any
module-level state — so the state component passes through unchanged while
the response is the streaming or non-streaming result. -/
def handlePost (s : InitState) (q now : String) (wantsStream : Bool)
    (genDelayMs : Nat) (gen : Except String String) : InitState × PostResponse :=
  (s, if wantsStream then streamingResult q now gen
      else nonStreamingResult q now genDelayMs gen)

/-- Trailing trim: reverse, strip leading whitespace, reverse back. -/
def trimEndWs (l : List Char) : List Char := (l.reverse.dropWhile isWs).reverse

theorem jsTrimL_eq_trimEnd (l : List Char) : jsTrimL l = trimEndWs (l.dropWhile isWs) := rfl

theorem trimEndWs_isPrefix (m : List Char) : ∃ t, trimEndWs m ++ t = m := by
  refine ⟨(m.reverse.takeWhile isWs).reverse, ?_⟩
  show (m.reverse.dropWhile isWs).reverse ++ (m.reverse.takeWhile isWs).reverse = m
  rw [← List.reverse_append, List.takeWhile_append_dropWhile, List.reverse_reverse]

theorem dropWhile_trimEnd (m : List Char) (hm : m.dropWhile isWs = m) :
    (trimEndWs m).dropWhile isWs = trimEndWs m := by
  obtain ⟨t, ht⟩ := trimEndWs_isPrefix m
  cases hg : trimEndWs m with
  | nil => simp
  | cons c r =>
    have hc : m.dropWhile isWs = m := hm
    have hmc : m = c :: (r ++ t) := by rw [← ht, hg]; simp
    have hpc : isWs c = false := by
      cases h' : isWs c with
      | false => rfl
      | true =>
        exfalso
        rw [hmc] at hc
        rw [List.dropWhile_cons_of_pos h'] at hc
        have hlen := congrArg List.length hc
        simp only [List.length_cons] at hlen
        have hle := (List.dropWhile_sublist (p := isWs) (l := r ++ t)).length_le
        omega
    simp [List.dropWhile_cons, hpc]

theorem trimEndWs_idem (m : List Char) : trimEndWs (trimEndWs m) = trimEndWs m := by
  unfold trimEndWs
  simp [List.dropWhile_idempotent]

theorem jsTrimL_idem (l : List Char) : jsTrimL (jsTrimL l) = jsTrimL l := by
  rw [jsTrimL_eq_trimEnd, jsTrimL_eq_trimEnd]
  rw [dropWhile_trimEnd (l.dropWhile isWs) (List.dropWhile_idempotent _ _)]
  exact trimEndWs_idem _

theorem jsTrim_idem (s : String) : jsTrim (jsTrim s) = jsTrim s := by
  unfold jsTrim
  exact congrArg String.mk (jsTrimL_idem s.data)

theorem dedupChunksGo_eq_firstOccs (l : List (List Char)) :
    ∀ seen, dedupChunksGo seen l = (firstOccsL seen l).map jsTrimL := by
  induction l with
  | nil => intro seen; rfl
  | cons s rest ih =>
    intro seen
    by_cases h : dedupKeyL s ∈ seen
    · simp [dedupChunksGo, firstOccsL, h, ih]
    · simp [dedupChunksGo, firstOccsL, h, ih]

theorem firstOccsL_sublist (l : List (List Char)) :
    ∀ seen, List.Sublist (firstOccsL seen l) l := by
  induction l with
  | nil => intro seen; simp [firstOccsL]
  | cons s rest ih =>
    intro seen
    by_cases h : dedupKeyL s ∈ seen
    · simp only [firstOccsL, if_pos h]
      exact (ih seen).cons s
    · simp only [firstOccsL, if_neg h]
      exact (ih _).cons₂ s

theorem firstOccsL_nodup_keys (l : List (List Char)) :
    ∀ seen, ((firstOccsL seen l).map dedupKeyL).Nodup ∧
      ∀ k ∈ (firstOccsL seen l).map dedupKeyL, k ∉ seen := by
  induction l with
  | nil => intro seen; simp [firstOccsL]
  | cons s rest ih =>
    intro seen
    by_cases h : dedupKeyL s ∈ seen
    · simpa only [firstOccsL, if_pos h] using ih seen
    · simp only [firstOccsL, if_neg h, List.map_cons, List.nodup_cons]
      obtain ⟨ihn, ihs⟩ := ih (dedupKeyL s :: seen)
      refine ⟨⟨?_, ihn⟩, ?_⟩
      · intro hmem
        exact (ihs _ hmem) (List.mem_cons_self _ _)
      · intro k hk
        rcases List.mem_cons.mp hk with hk1 | hk2
        · rw [hk1]; exact h
        · intro hks
          exact (ihs k hk2) (List.mem_cons_of_mem _ hks)

theorem firstOccsL_complete (l : List (List Char)) :
    ∀ seen, ∀ s ∈ l,
      dedupKeyL s ∈ seen ∨ dedupKeyL s ∈ (firstOccsL seen l).map dedupKeyL := by
  induction l with
  | nil => intro seen s hs; cases hs
  | cons x rest ih =>
    intro seen s hs
    rcases List.mem_cons.mp hs with h1 | h2
    · subst h1
      by_cases h : dedupKeyL s ∈ seen
      · exact Or.inl h
      · right
        simp [firstOccsL, if_neg h]
    · by_cases h : dedupKeyL x ∈ seen
      · rcases ih seen s h2 with ha | hb
        · exact Or.inl ha
        · right; simpa [firstOccsL, if_pos h] using hb
      · rcases ih (dedupKeyL x :: seen) s h2 with ha | hb
        · rcases List.mem_cons.mp ha with hx | hy
          · right
            simp [firstOccsL, if_neg h, hx]
          · exact Or.inl hy
        · right
          simp only [firstOccsL, if_neg h, List.map_cons]
          exact List.mem_cons_of_mem _ hb

theorem flatten_map_single (l : List Char) :
    (l.map (fun c => [c])).flatten = l := by
  induction l with
  | nil => rfl
  | cons c cs ih => simp [ih]

theorem initializeCall_inFlight1 :
    initializeCall inFlight1 = (inFlight1, InitResult.promise 1) := by decide

theorem callN_inFlight1 (n : Nat) :
    callN n inFlight1 = (inFlight1, List.replicate n (InitResult.promise 1)) := by
  induction n with
  | zero => rfl
  | succ m ih => simp [callN, initializeCall_inFlight1, ih, List.replicate_succ]

/-- Claim C1 (counterexample): the transform stages are not idempotent.  For
the question "x" no intent-override pattern matches, yet re-running
`cleanModelResponse` on its own output changes the text: on input `" . X."`
the first run yields `". X."` (the sentence regex keeps the whitespace-only
body of `" ."`, whose trim is `"."`), while the second run drops the leading
`". "` entirely, yielding `"X."`. -/
theorem c1_not_idempotent_cex :
    overrideResp "x" "" = none ∧
    cleanModelResponse " . X." "x" "" = ". X." ∧
    cleanModelResponse (cleanModelResponse " . X." "x" "") "x" "" = "X." ∧
    cleanModelResponse (cleanModelResponse " . X." "x" "") "x" "" ≠
      cleanModelResponse " . X." "x" "" := by
  refine ⟨by decide, by decide, by decide, by decide⟩

/-- Claim C1 (amended): full idempotence of the transform stages fails (see
the counterexample), but the final stage — trim followed by the
"no information" fallback, exactly the tail of `afterOverride` — is
idempotent: applying trim-then-fallback to its own output returns it
unchanged (the redirect text itself matches a "no information" pattern and
has no surrounding whitespace). -/
theorem c1_trim_fallback_idempotent (t : String) :
    noInfoFallback (jsTrim (noInfoFallback (jsTrim t))) = noInfoFallback (jsTrim t) := by
  by_cases h : noInfoTest (jsTrim t)
  · have h1 : noInfoFallback (jsTrim t) = noInfoText := by
      simp [noInfoFallback, h]
    rw [h1]
    have h2 : jsTrim noInfoText = noInfoText := by decide
    rw [h2]
    have h3 : noInfoTest noInfoText = true := by decide
    simp [noInfoFallback, h3]
  · have h1 : noInfoFallback (jsTrim t) = jsTrim t := by
      simp [noInfoFallback, h]
    rw [h1, jsTrim_idem]
    simp [noInfoFallback, h]

/-- Claim C2: starting from the uninitialised state, any number `n ≥ 1` of
calls to the init entry point with no build completion in between triggers
exactly one build (the ghost build counter is 1) and every caller receives
the same in-flight promise (id 1): callers observing the Initializing state
attach to the single cached `initPromise` instead of starting a second
build. -/
theorem c2_single_build (n : Nat) (h : 1 ≤ n) :
    (callN n initState0).1.buildCount = 1 ∧
    (callN n initState0).2 = List.replicate n (InitResult.promise 1) := by
  cases n with
  | zero => omega
  | succ m =>
    have h0 : initializeCall initState0 = (inFlight1, InitResult.promise 1) := by decide
    have h1 := callN_inFlight1 m
    constructor
    · simp [callN, h0, h1]
      decide
    · simp [callN, h0, h1, List.replicate_succ]

/-- Witness for C2 at `n = 3`. -/
theorem c2_single_build_witness :
    1 ≤ 3 ∧
      ((callN 3 initState0).1.buildCount = 1 ∧
       (callN 3 initState0).2 = List.replicate 3 (InitResult.promise 1)) :=
  ⟨by decide, c2_single_build 3 (by decide)⟩

/-- Claim C3: after a failed build attempt the state is reset to the
Uninitialized shape — `isInitialized` and `isInitializing` cleared,
`initPromise` discarded — and the very next call starts a fresh build
(the build counter increments and a new promise id is handed out).  The
concrete run shows both earlier callers held the same promise (id 1), the
one whose rejection they all surface, and that the call after the failure
gets the fresh promise id 2. -/
theorem c3_failure_resets :
    (∀ s : InitState,
      (buildFail s).isInitialized = false ∧
      (buildFail s).isInitializing = false ∧
      (buildFail s).initPromise = none ∧
      (initializeCall (buildFail s)).2 = InitResult.promise s.nextId ∧
      (initializeCall (buildFail s)).1.buildCount = s.buildCount + 1 ∧
      (initializeCall (buildFail s)).1.isInitializing = true) ∧
    ((callN 2 initState0).2 = [InitResult.promise 1, InitResult.promise 1] ∧
     (initializeCall (buildFail (callN 2 initState0).1)).2 = InitResult.promise 2) := by
  constructor
  · intro s
    refine ⟨rfl, rfl, rfl, ?_, ?_, ?_⟩ <;> simp [initializeCall, buildFail]
  · exact ⟨by decide, by decide⟩

/-- Claim C4: for the same question and raw completion the two delivery
modes agree — the concatenation of all streamed units is exactly the
non-streaming `NormalizedAnswer`, because the streaming branch enqueues the
cleaned text character by character and the non-streaming branch returns the
same cleaned text as a single payload. -/
theorem c4_stream_equiv (raw q now : String) (d : Nat) (h : d < 90000) :
    concatUnits (streamUnitsOf raw q now) = (cleanModelResponse raw q now).data ∧
    nonStreamingResult q now d (Except.ok raw) =
      PostResponse.ok (cleanModelResponse raw q now) ∧
    streamingResult q now (Except.ok raw) =
      PostResponse.streamBody (streamUnitsOf raw q now) 200 := by
  refine ⟨?_, ?_, rfl⟩
  · unfold concatUnits streamUnitsOf
    rw [List.map_map]
    have hcomp : (String.data ∘ fun c => String.singleton c) = fun c : Char => [c] := rfl
    rw [hcomp, flatten_map_single]
  · simp [nonStreamingResult, raceWithTimeout, h]

/-- Witness for C4 at a concrete input. -/
theorem c4_stream_equiv_witness :
    (0 : Nat) < 90000 ∧
      (concatUnits (streamUnitsOf "Hi." "x" "") = (cleanModelResponse "Hi." "x" "").data ∧
       nonStreamingResult "x" "" 0 (Except.ok "Hi.") =
         PostResponse.ok (cleanModelResponse "Hi." "x" "") ∧
       streamingResult "x" "" (Except.ok "Hi.") =
         PostResponse.streamBody (streamUnitsOf "Hi." "x" "") 200) :=
  ⟨by decide, c4_stream_equiv "Hi." "x" "" 0 (by decide)⟩

/-- Claim C5 (counterexample): the dedup property does not hold of the RAW
model text.  The raw text `"He is tall. He is tall."` contains an exact
repeated sentence and no override matches the question `"x"`, yet the
normalized output contains zero occurrences of that sentence — the
pronoun-correction stage rewrites `He` to `I` before deduplication, so the
kept sentence is `"I is tall."`, not the raw sentence with its original
casing. -/
theorem c5_raw_sentence_cex :
    overrideResp "x" "" = none ∧
    cleanModelResponse "He is tall. He is tall." "x" "" = "I is tall." ∧
    hasCS "He is tall.".data "I is tall.".data = false := by
  refine ⟨by decide, by decide, by decide⟩

/-- Claim C5 (amended): the dedup stage does keep exactly the first
occurrence per duplicate key, at the text it actually sees (after the
substitution stages).  For any sentence list, the dedup loop returns the
trimmed forms of exactly the first occurrence of each distinct dedup key
(`firstOccsL`), the kept keys are pairwise distinct, the kept sentences are
a subsequence of the input (original relative order preserved), and every
input sentence's key is represented. -/
theorem c5_dedup_first_occurrence (l : List (List Char)) :
    dedupChunksGo [] l = (firstOccsL [] l).map jsTrimL ∧
    ((firstOccsL [] l).map dedupKeyL).Nodup ∧
    List.Sublist (firstOccsL [] l) l ∧
    ∀ s ∈ l, dedupKeyL s ∈ (firstOccsL [] l).map dedupKeyL := by
  refine ⟨dedupChunksGo_eq_firstOccs l [], (firstOccsL_nodup_keys l []).1,
    firstOccsL_sublist l [], ?_⟩
  intro s hs
  rcases firstOccsL_complete l [] s hs with h | h
  · cases h
  · exact h

/-- Witness for C5 at a concrete sentence list with a repeated key. -/
theorem c5_dedup_first_occurrence_witness :
    dedupChunksGo [] ["A b.".data, " a  B.".data, "C.".data] =
      (firstOccsL [] ["A b.".data, " a  B.".data, "C.".data]).map jsTrimL ∧
    ((firstOccsL [] ["A b.".data, " a  B.".data, "C.".data]).map dedupKeyL).Nodup ∧
    List.Sublist (firstOccsL [] ["A b.".data, " a  B.".data, "C.".data])
      ["A b.".data, " a  B.".data, "C.".data] ∧
    ∀ s ∈ ["A b.".data, " a  B.".data, "C.".data],
      dedupKeyL s ∈
        (firstOccsL [] ["A b.".data, " a  B.".data, "C.".data]).map dedupKeyL :=
  c5_dedup_first_occurrence ["A b.".data, " a  B.".data, "C.".data]

/-- Claim C6 (counterexample): a question matching the binary arithmetic
pattern does not always yield the computed numeric result — the Shopify
override is checked first and wins.  `"shopify what is 7 * 6?"` matches the
math pattern, yet the output is the canned Shopify answer, not `"42"`. -/
theorem c6_priority_cex :
    mathTest "shopify what is 7 * 6?" = true ∧
    cleanModelResponse "" "shopify what is 7 * 6?" "" = shopifyText ∧
    shopifyText ≠ "42" := by
  refine ⟨by decide, by decide, by decide⟩

/-- Claim C6 (amended): when no earlier override (greeting, small talk,
Shopify) matches the question and the arithmetic pattern does, the output is
the computed result of the extracted binary expression, for every raw model
text; in particular the question "what is 7 * 6?" always yields exactly
"42". -/
theorem c6_math_override (text q now r : String)
    (hg : greetingTest (jsTrim q) = false) (hc : convTest (jsTrim q) = false)
    (hs : shopifyTest q = false) (hm : mathTest q = true)
    (ha : mathAnswer q = some r) :
    cleanModelResponse text q now = r ∧
    cleanModelResponse text "what is 7 * 6?" now = "42" := by
  constructor
  · simp [cleanModelResponse, overrideResp, hg, hc, hs, hm, ha]
  · rfl

/-- Witness for C6 at the question of the claim. -/
theorem c6_math_override_witness :
    greetingTest (jsTrim "what is 7 * 6?") = false ∧
    convTest (jsTrim "what is 7 * 6?") = false ∧
    shopifyTest "what is 7 * 6?" = false ∧
    mathTest "what is 7 * 6?" = true ∧
    mathAnswer "what is 7 * 6?" = some "42" ∧
    (cleanModelResponse "ignored" "what is 7 * 6?" "" = "42" ∧
     cleanModelResponse "ignored" "what is 7 * 6?" "" = "42") :=
  ⟨by decide, by decide, by decide, by decide, by decide,
    c6_math_override "ignored" "what is 7 * 6?" "" "42"
      (by decide) (by decide) (by decide) (by decide) (by decide)⟩

/-- Claim C7 (counterexample): a question referencing personal information
does not always get the refusal — the Shopify override is checked first and
wins.  `"shopify address"` matches the personal-information pattern, yet the
output is the canned Shopify answer, not the refusal sentence. -/
theorem c7_priority_cex :
    personalTest "shopify address" = true ∧
    cleanModelResponse "" "shopify address" "" = shopifyText ∧
    shopifyText ≠ personalText := by
  refine ⟨by decide, by decide, by decide⟩

/-- Claim C7 (amended): when no earlier override (greeting, small talk,
Shopify, arithmetic, date, days/hours) matches the question and the
personal-information pattern does, the output is exactly the fixed refusal
sentence, for every raw model text; in particular the question
"what's your address" always yields the refusal. -/
theorem c7_personal_refusal (text q now : String)
    (hp : personalTest q = true)
    (hg : greetingTest (jsTrim q) = false) (hc : convTest (jsTrim q) = false)
    (hs : shopifyTest q = false) (hm : mathTest q = false)
    (hd : dateTest q = false) (hh : dhTest q = false) :
    cleanModelResponse text q now = personalText ∧
    cleanModelResponse text "what's your address" now = personalText := by
  constructor
  · simp [cleanModelResponse, overrideResp, hp, hg, hc, hs, hm, hd, hh]
  · rfl

/-- Witness for C7 at the question of the claim. -/
theorem c7_personal_refusal_witness :
    personalTest "what's your address" = true ∧
    greetingTest (jsTrim "what's your address") = false ∧
    convTest (jsTrim "what's your address") = false ∧
    shopifyTest "what's your address" = false ∧
    mathTest "what's your address" = false ∧
    dateTest "what's your address" = false ∧
    dhTest "what's your address" = false ∧
    (cleanModelResponse "ignored" "what's your address" "" = personalText ∧
     cleanModelResponse "ignored" "what's your address" "" = personalText) :=
  ⟨by decide, by decide, by decide, by decide, by decide, by decide, by decide,
    c7_personal_refusal "ignored" "what's your address" ""
      (by decide) (by decide) (by decide) (by decide) (by decide) (by decide)
      (by decide)⟩

/-- Claim C8: the non-streaming generation call races a fixed 90 000 ms
deadline.  When generation takes at least 90 seconds the race times out, the
request fails with the timeout error (a case distinct from a settled
generation), and the loser's eventual result is discarded — the response is
the same whatever the generation outcome would have been. -/
theorem c8_timeout_race (q now : String) (d : Nat)
    (gen gen' : Except String String) (h : 90000 ≤ d) :
    raceWithTimeout d gen = RaceResult.timedOut ∧
    nonStreamingResult q now d gen =
      PostResponse.err ("Error processing your request: " ++ timeoutMessage) 500 ∧
    nonStreamingResult q now d gen = nonStreamingResult q now d gen' ∧
    RaceResult.timedOut ≠ RaceResult.settled gen := by
  have hr : ∀ g : Except String String, raceWithTimeout d g = RaceResult.timedOut := by
    intro g
    simp [raceWithTimeout]
    omega
  refine ⟨hr gen, ?_, ?_, by simp⟩
  · simp [nonStreamingResult, hr]
  · simp [nonStreamingResult, hr]

/-- Witness for C8 at the deadline boundary. -/
theorem c8_timeout_race_witness :
    90000 ≤ 90000 ∧
      (raceWithTimeout 90000 (Except.ok "late answer") = RaceResult.timedOut ∧
       nonStreamingResult "q" "" 90000 (Except.ok "late answer") =
         PostResponse.err ("Error processing your request: " ++ timeoutMessage) 500 ∧
       nonStreamingResult "q" "" 90000 (Except.ok "late answer") =
         nonStreamingResult "q" "" 90000 (Except.error "boom") ∧
       RaceResult.timedOut ≠ RaceResult.settled (Except.ok "late answer")) :=
  ⟨by decide, c8_timeout_race "q" "" 90000 (Except.ok "late answer")
    (Except.error "boom") (by decide)⟩

/-- Claim C9 (counterexample): the normalizer does not always return
non-empty displayable text.  For the raw text `"hello"` (no sentence
terminator) and the override-free question `"x"`, the sentence regex of the
dedup stage matches nothing, the text is replaced by the empty join, no
fallback pattern matches the empty string, and the pipeline returns `""`. -/
theorem c9_empty_output_cex :
    overrideResp "x" "" = none ∧
    cleanModelResponse "hello" "x" "" = "" := by
  refine ⟨by decide, by decide⟩

/-- Claim C9 (amended): the output can be empty (see the counterexample),
but an unusable result is indeed replaced rather than dropped: whenever no
override fires, the list-format branch does not fire, and the trimmed
pre-fallback text matches a "no information" phrase, the pipeline returns
exactly the fixed (non-empty) redirect sentence. -/
theorem c9_no_info_fallback (text q now : String)
    (h1 : overrideResp q now = none)
    (h2 : listCond (concisionStage (transformStages text) q) q = false)
    (h3 : noInfoTest (jsTrim (concisionStage (transformStages text) q)) = true) :
    cleanModelResponse text q now = noInfoText ∧ noInfoText ≠ "" := by
  constructor
  · simp [cleanModelResponse, afterOverride, h1, h2, noInfoFallback, h3]
  · decide

/-- Witness for C9 at a concrete "don't know" completion. -/
theorem c9_no_info_fallback_witness :
    overrideResp "x" "" = none ∧
    listCond (concisionStage (transformStages "I don't know.") "x") "x" = false ∧
    noInfoTest (jsTrim (concisionStage (transformStages "I don't know.") "x")) = true ∧
    (cleanModelResponse "I don't know." "x" "" = noInfoText ∧ noInfoText ≠ "") :=
  ⟨by decide, by decide, by decide,
    c9_no_info_fallback "I don't know." "x" "" (by decide) (by decide) (by decide)⟩

/-- Claim C10 (counterexample): a streaming generation failure is NOT
propagated as a non-2xx `{ error }` payload — the catch inside the stream
writes `"Error: " + message` in-band into a 200 plain-text stream. -/
theorem c10_streaming_error_cex :
    streamingResult "x" "" (Except.error "boom") =
      PostResponse.streamBody ["Error: boom"] 200 ∧
    isErrPayload (streamingResult "x" "" (Except.error "boom")) = false := by
  refine ⟨by decide, by decide⟩

/-- Claim C10 (amended): a non-streaming generation failure propagates as a
500 `{ error }` payload; a streaming generation failure is delivered in-band
as `"Error: ..."` text in a 200 stream (not an `{ error }` payload); in
both modes the shared initialisation state passes through unchanged. -/
theorem c10_error_propagation (s : InitState) (q now e : String) (d : Nat)
    (h : d < 90000) :
    handlePost s q now false d (Except.error e) =
      (s, PostResponse.err ("Error processing your request: " ++ e) 500) ∧
    handlePost s q now true d (Except.error e) =
      (s, PostResponse.streamBody ["Error: " ++ e] 200) ∧
    isErrPayload (PostResponse.streamBody ["Error: " ++ e] 200) = false := by
  refine ⟨?_, rfl, rfl⟩
  simp [handlePost, nonStreamingResult, raceWithTimeout, h, streamingResult]

/-- Witness for C10 at a concrete failure. -/
theorem c10_error_propagation_witness :
    (0 : Nat) < 90000 ∧
      (handlePost initState0 "q" "" false 0 (Except.error "boom") =
        (initState0, PostResponse.err ("Error processing your request: " ++ "boom") 500) ∧
       handlePost initState0 "q" "" true 0 (Except.error "boom") =
        (initState0, PostResponse.streamBody ["Error: " ++ "boom"] 200) ∧
       isErrPayload (PostResponse.streamBody ["Error: " ++ "boom"] 200) = false) :=
  ⟨by decide, c10_error_propagation initState0 "q" "" "boom" 0 (by decide)⟩
